import Mathlib

/-!
Verification of `inhouse-mcp-server/bitbucket_server.py`.

This file gives a shallow embedding of the Bitbucket MCP server tools.
Remote HTTP behaviour is modelled by oracles: a completed request is either
a response (status code, body text, parsed JSON pieces) or a raised
exception carrying a message.  Python's `requests.get` plus `.json()`
parsing is one oracle lookup; a `.json()` parse error is folded into the
exception alternative, since both are caught by the same `except` block.
Recursion depth is modelled by explicit fuel: entering a frame consumes one
unit, and a recursive call attempted with zero budget models Python's
`RecursionError`, which is raised at the call site and caught by the
calling frame's `except` handler.
-/

namespace Bitbucket

/-- JSON-like values, mirroring the Python dicts/lists the server builds.
Object key order is kept, as Python dicts preserve insertion order. -/
inductive JVal where
  | str (s : String)
  | num (n : Nat)
  | bool (b : Bool)
  | null
  | arr (xs : List JVal)
  | obj (kvs : List (String × JVal))

/-- Association-list lookup, first match wins (the server never builds
duplicate keys, so this agrees with Python dict lookup). -/
def lookupKV : List (String × JVal) → String → Option JVal
  | [], _ => none
  | (k, v) :: rest, key => if k = key then some v else lookupKV rest key

/-- Python's `d.get(key)` on a JSON object; `none` on non-objects. -/
def jget : JVal → String → Option JVal
  | JVal.obj kvs, k => lookupKV kvs k
  | _, _ => none

/-- Python truthiness of an optional JSON value, as used in
`if not auth_result.get("success")`; `none` models Python `None`. -/
def truthy : Option JVal → Bool
  | none => false
  | some JVal.null => false
  | some (JVal.bool b) => b
  | some (JVal.str s) => s ≠ ""
  | some (JVal.num n) => n ≠ 0
  | some (JVal.arr xs) => !xs.isEmpty
  | some (JVal.obj kvs) => !kvs.isEmpty

/-- An entry of a `src` directory listing, after the `.get` defaulting the
code applies: `item.get('type', 'unknown')`, `item.get('path', '')`,
`item.get('size', 0)`. -/
structure Entry where
  type : String
  path : String
  size : Nat

/-- Outcome of one GET against the `src/{branch}/{path}` endpoint.
`resp` carries the status code, the body text (`response.text`) and the
parsed `values` list (`response.json().get('values', [])`, consulted only
on a 200 directory listing).  `exc` is a raised exception (network error or
JSON parse failure). -/
inductive SrcOutcome where
  | resp (status : Nat) (text : String) (values : List Entry)
  | exc (msg : String)

/-- A remote `src` endpoint: each repository path is mapped to the outcome
every GET for it produces during the fetch. -/
def SrcRemote := String → SrcOutcome

/-- The in-memory tree the fetcher builds: the dicts constructed at lines
274-297 of the source, `{'type': 'directory', 'path': ..., 'children': ...}`
and `{'type': 'file', 'path': ..., 'size': ..., 'content': ...}`. -/
inductive TreeNode where
  | dir (path : String) (children : List TreeNode)
  | file (path : String) (size : Nat) (content : Option String)

/-- The tuple of extensions at line 290 of the source, used by
`get_directory_structure` to decide whether to fetch a file's content. -/
def codebaseExtensions : List String :=
  [".py", ".js", ".ts", ".java", ".cpp", ".c", ".h", ".html", ".css",
   ".json", ".xml", ".md", ".txt", ".yml", ".yaml", ".sh", ".bat", ".ps1"]

/-- Python `s.endswith(suf)` for a single suffix. -/
def strEndsWith (s suf : String) : Bool :=
  suf.data.isSuffixOf s.data

/-- The content-fetch decision at line 290:
`item_path.endswith(('.py', ...))` — a case-sensitive suffix test against
the tuple, true when any listed extension is a suffix of the path. -/
def shouldFetchContent (p : String) : Bool :=
  codebaseExtensions.any (fun e => strEndsWith p e)

/-- `get_file_contents` (lines 250-262): returns the body on 200, and an
inline error string on a non-success status or an exception. -/
def get_file_contents (remote : SrcRemote) (file_path : String) : String :=
  match remote file_path with
  | SrcOutcome.resp status text _ =>
      if status = 200 then text
      else "Error: Could not fetch file " ++ file_path ++ " (Status: " ++ toString status ++ ")"
  | SrcOutcome.exc msg =>
      "Error: Exception while fetching " ++ file_path ++ ": " ++ msg

/-- The File-node construction at lines 286-291. -/
def fileNode (remote : SrcRemote) (item : Entry) : TreeNode :=
  TreeNode.file item.path item.size
    (if shouldFetchContent item.path then some (get_file_contents remote item.path) else none)

/-- The `for item in data.get('values', [])` loop body of
`get_directory_structure` (lines 280-297).  `recurse` is the recursive
call available to this frame and `fuel` its remaining depth budget:
attempting to recurse with zero budget raises `RecursionError`, which this
frame's `except` catches, aborting the whole frame (`none`). A `none` from
`recurse` itself is a failed subtree, silently omitted (lines 296-297). -/
def processValues (remote : SrcRemote) (fuel : Nat)
    (recurse : String → Option TreeNode) : List Entry → Option (List TreeNode)
  | [] => some []
  | item :: rest =>
      if item.type = "commit_file" then
        match processValues remote fuel recurse rest with
        | some ns => some (fileNode remote item :: ns)
        | none => none
      else if item.type = "commit_directory" then
        if fuel = 0 then none
        else
          match recurse item.path with
          | some sub =>
              match processValues remote fuel recurse rest with
              | some ns => some (sub :: ns)
              | none => none
          | none => processValues remote fuel recurse rest
      else processValues remote fuel recurse rest

/-- `get_directory_structure` (lines 264-304).  A frame entered with budget
`fuel + 1` gives its children budget `fuel`.  `none` models the Python
function returning `None`: non-success listing status, a raised exception,
or a `RecursionError` escaping from a child call into this frame's
`except`.  The unreachable budget-0 case is `none` for totality. -/
def get_directory_structure (remote : SrcRemote) : Nat → String → Option TreeNode
  | 0, _ => none
  | Nat.succ fuel, dir_path =>
      match remote dir_path with
      | SrcOutcome.resp status _ values =>
          if status = 200 then
            match processValues remote fuel
                (fun p => get_directory_structure remote fuel p) values with
            | some children => some (TreeNode.dir dir_path children)
            | none => none
          else none
      | SrcOutcome.exc _ => none

/-- The children computation of a frame whose own budget is `fuel + 1`. -/
def processAt (remote : SrcRemote) (fuel : Nat) (values : List Entry) : Option (List TreeNode) :=
  processValues remote fuel (fun p => get_directory_structure remote fuel p) values

/-- Whether the GET for `p` fails to deliver a 200: a non-success status or
a raised exception.  This is the condition under which
`get_directory_structure` returns `None` for `p` and `get_file_contents`
returns an inline error string. -/
def listingFails (remote : SrcRemote) (p : String) : Bool :=
  match remote p with
  | SrcOutcome.resp status _ _ => !(status = 200 : Bool)
  | SrcOutcome.exc _ => true

mutual

/-- Serialization of a tree node back to the JSON dict the Python code
actually holds (the code builds these dicts directly; `TreeNode` names
their two shapes).  Key order follows the construction order in the
source. -/
def TreeNode.toJVal : TreeNode → JVal
  | TreeNode.file p s c =>
      JVal.obj [("type", JVal.str "file"), ("path", JVal.str p), ("size", JVal.num s),
        ("content", match c with | some t => JVal.str t | none => JVal.null)]
  | TreeNode.dir p cs =>
      JVal.obj [("type", JVal.str "directory"), ("path", JVal.str p),
        ("children", JVal.arr (treeListToJVal cs))]

/-- Pointwise serialization of a children list. -/
def treeListToJVal : List TreeNode → List JVal
  | [] => []
  | t :: ts => TreeNode.toJVal t :: treeListToJVal ts

end

/-- Process configuration: the two environment variables read at lines
18-21, `BITBUCKET_TOKEN` and `BITBUCKET_EMAIL` (both default `""`). -/
structure Config where
  BITBUCKET_TOKEN : String
  BITBUCKET_EMAIL : String

/-- The standard base64 alphabet used by Python's `base64.b64encode`. -/
def b64Alphabet : String :=
  "ABCDEFGHIJKLMNOPQRSTUVWXYZabcdefghijklmnopqrstuvwxyz0123456789+/"

/-- Character of the base64 alphabet at index `n` (`n < 64` always holds at
call sites). -/
def b64CharAt (n : Nat) : Char :=
  b64Alphabet.data.getD n '='

/-- Base64 of a byte sequence, 3 bytes to 4 characters with `=` padding,
as `base64.b64encode` produces. -/
def base64EncodeBytes : List Nat → List Char
  | [] => []
  | [a] => [b64CharAt (a / 4), b64CharAt (a % 4 * 16), '=', '=']
  | [a, b] => [b64CharAt (a / 4), b64CharAt (a % 4 * 16 + b / 16), b64CharAt (b % 16 * 4), '=']
  | a :: b :: c :: rest =>
      b64CharAt (a / 4) :: b64CharAt (a % 4 * 16 + b / 16) ::
        b64CharAt (b % 16 * 4 + c / 64) :: b64CharAt (c % 64) :: base64EncodeBytes rest

/-- `base64.b64encode(s.encode()).decode()`: base64 of the UTF-8 bytes. -/
def base64Encode (s : String) : String :=
  String.mk (base64EncodeBytes (s.toUTF8.toList.map (fun b => b.toNat)))

/-- `get_headers_with_email` (lines 52-58).  The Python function returns
the dict `{"Authorization": "Basic " + encoded}`; we model the dict by its
single value.  The global `auth_headers` is correspondingly modelled as
`Option String` (`none` is Python `None`; a headers dict is always
truthy, matching `some`). -/
def get_headers_with_email (cfg : Config) (email : String) : String :=
  "Basic " ++ base64Encode (email ++ ":" ++ cfg.BITBUCKET_TOKEN)

/-- Outcome of the GET against the `/2.0/user` endpoint in
`authenticate_user`.  `resp` carries the status, `response.text` and the
parsed JSON object fields (`response.json()`, read only on 200).  `exc`
covers a raised network exception and a `.json()` parse failure, both
caught by the same `except`. -/
inductive UserOutcome where
  | resp (status : Nat) (text : String) (body : List (String × JVal))
  | exc (msg : String)

/-- The email-defaulting step at lines 74-81: a `None` argument falls back
to `BITBUCKET_EMAIL` when that is non-empty (Python truthiness of a
string), otherwise no email is available. -/
def resolveEmail (cfg : Config) (email : Option String) : Option String :=
  match email with
  | some e => some e
  | none => if cfg.BITBUCKET_EMAIL ≠ "" then some cfg.BITBUCKET_EMAIL else none

/-- Rendering of a JSON value inside an f-string (`str` in Python);
objects and arrays are abbreviated, which no claim depends on. -/
def jvalStr : JVal → String
  | JVal.str s => s
  | JVal.num n => toString n
  | JVal.bool b => if b then "True" else "False"
  | JVal.null => "None"
  | JVal.arr _ => "[...]"
  | JVal.obj _ => "{...}"

/-- `authenticate_user` (lines 60-108), as a transformer of the global
`auth_headers` state: it returns the new state and the result dict.
On a 200 response the code assigns `auth_headers = headers` and then
builds the success dict, whose message indexes `user_data['username']`;
if that key is absent the `KeyError` is caught by the surrounding
`except` and the exception envelope is returned — but the assignment to
`auth_headers` has already happened. -/
def authenticate_user (cfg : Config) (oracle : UserOutcome) (email : Option String)
    (st : Option String) : Option String × JVal :=
  match resolveEmail cfg email with
  | none =>
      (st, JVal.obj [("success", JVal.bool false),
        ("error", JVal.str "No email provided and BITBUCKET_EMAIL not configured. Please provide an email parameter or set BITBUCKET_EMAIL in your configuration.")])
  | some em =>
      let headers := get_headers_with_email cfg em
      match oracle with
      | UserOutcome.resp status text body =>
          if status = 200 then
            match lookupKV body "username" with
            | some uname =>
                (some headers, JVal.obj [("success", JVal.bool true),
                  ("user", JVal.obj body),
                  ("message", JVal.str ("Authenticated as: " ++ jvalStr uname ++ " using email: " ++ em))])
            | none =>
                (some headers, JVal.obj [("success", JVal.bool false),
                  ("error", JVal.str "Exception during authentication: username")])
          else
            (st, JVal.obj [("success", JVal.bool false),
              ("error", JVal.str ("Authentication failed: " ++ toString status)),
              ("details", JVal.str text)])
      | UserOutcome.exc msg =>
          (st, JVal.obj [("success", JVal.bool false),
            ("error", JVal.str ("Exception during authentication: " ++ msg))])

/-- The authentication preamble repeated verbatim in `get_workspaces`
(120-130), `get_repositories` (172-182), `get_specific_file_content`
(343-353) and `get_repository_files_list` (400-410): when `auth_headers`
is unset, try `authenticate_user()` if `BITBUCKET_EMAIL` is configured and
propagate its envelope on failure; otherwise fail with the
not-authenticated message.  Returns the new state and `some envelope` when
the tool must return early, `none` to continue. -/
def ensure_auth (cfg : Config) (ao : UserOutcome) (st : Option String) :
    Option String × Option JVal :=
  match st with
  | some _ => (st, none)
  | none =>
      if cfg.BITBUCKET_EMAIL ≠ "" then
        let r := authenticate_user cfg ao none none
        if truthy (jget r.2 "success") then (r.1, none) else (r.1, some r.2)
      else
        (none, some (JVal.obj [("success", JVal.bool false),
          ("error", JVal.str "Not authenticated. Please authenticate first using authenticate_user() or configure BITBUCKET_EMAIL.")]))

/-- Outcome of one GET against the workspaces endpoint: status,
`response.text`, and the parsed `values` list (read only on 200).
A `.json()` failure is folded into `exc`. -/
inductive WsOutcome where
  | resp (status : Nat) (text : String) (values : List JVal)
  | exc (msg : String)

/-- `get_workspaces` (lines 110-156). -/
def get_workspaces (cfg : Config) (ao : UserOutcome) (wo : WsOutcome)
    (st : Option String) : Option String × JVal :=
  match ensure_auth cfg ao st with
  | (st1, some env) => (st1, env)
  | (st1, none) =>
      match wo with
      | WsOutcome.resp status text values =>
          if status = 200 then
            (st1, JVal.obj [("success", JVal.bool true),
              ("workspaces", JVal.arr values), ("count", JVal.num values.length)])
          else
            (st1, JVal.obj [("success", JVal.bool false),
              ("error", JVal.str ("Failed to get workspaces: " ++ toString status)),
              ("details", JVal.str text)])
      | WsOutcome.exc msg =>
          (st1, JVal.obj [("success", JVal.bool false),
            ("error", JVal.str ("Exception while getting workspaces: " ++ msg))])

/-- Outcome of one GET of a repositories page: status, `response.text`,
the parsed `values` list, and the `next` field
(`data.get('next')`, `none` when absent). -/
inductive PageOutcome where
  | resp (status : Nat) (text : String) (values : List JVal) (next : Option String)
  | exc (msg : String)

/-- A remote repositories endpoint, keyed by URL.  The `pagelen`/`sort`
query params sent with the first request (and cleared afterwards) are part
of the remote behaviour the oracle fixes per URL. -/
def RepoRemote := String → PageOutcome

/-- Result of the `while next_url:` loop of `get_repositories`
(lines 195-213). -/
inductive LoopRes where
  | done (repos : List JVal)
  | fail (status : Nat) (text : String)
  | exc (msg : String)

/-- The pagination loop: follow `next` URLs, extending `all_repos` with
each page's `values`, until `next` is absent; a non-success page returns
the failure immediately and an exception propagates to the tool's
`except`.  The loop has no exit of its own on an infinite `next` chain, so
exhausted fuel returns `none` (the Python loop never returns). -/
def repos_loop (oracle : RepoRemote) : Nat → String → List JVal → Option LoopRes
  | 0, _, _ => none
  | Nat.succ fuel, next_url, all_repos =>
      match oracle next_url with
      | PageOutcome.resp status text values next =>
          if status = 200 then
            match next with
            | some u => repos_loop oracle fuel u (all_repos ++ values)
            | none => some (LoopRes.done (all_repos ++ values))
          else some (LoopRes.fail status text)
      | PageOutcome.exc msg => some (LoopRes.exc msg)

/-- The endpoint serves, starting at `url`, a finite chain of 200 pages
whose `values` are `pages` in order, linked by `next` URLs, the last page
lacking `next`. -/
inductive FollowedChain (oracle : RepoRemote) : String → List (List JVal) → Prop where
  | last : ∀ url text vals,
      oracle url = PageOutcome.resp 200 text vals none →
      FollowedChain oracle url [vals]
  | step : ∀ url text vals nextUrl rest,
      oracle url = PageOutcome.resp 200 text vals (some nextUrl) →
      FollowedChain oracle nextUrl rest →
      FollowedChain oracle url (vals :: rest)

/-- The URL choice at lines 185-188; Python's `if workspace:` is false for
`None` and for the empty string. -/
def reposUrl (workspace : Option String) : String :=
  match workspace with
  | some w =>
      if w ≠ "" then "https://api.bitbucket.org/2.0/repositories/" ++ w
      else "https://api.bitbucket.org/2.0/repositories"
  | none => "https://api.bitbucket.org/2.0/repositories"

/-- `get_repositories` (lines 158-224).  The second component is `none`
exactly when the pagination loop never terminates. -/
def get_repositories (cfg : Config) (ao : UserOutcome) (ro : RepoRemote) (fuel : Nat)
    (workspace : Option String) (page_size : Nat) (st : Option String) :
    Option String × Option JVal :=
  let _ := page_size
  match ensure_auth cfg ao st with
  | (st1, some env) => (st1, some env)
  | (st1, none) =>
      match repos_loop ro fuel (reposUrl workspace) [] with
      | none => (st1, none)
      | some (LoopRes.done repos) =>
          (st1, some (JVal.obj [("success", JVal.bool true),
            ("repositories", JVal.arr repos), ("count", JVal.num repos.length)]))
      | some (LoopRes.fail status text) =>
          (st1, some (JVal.obj [("success", JVal.bool false),
            ("error", JVal.str ("Failed to get repositories: " ++ toString status)),
            ("details", JVal.str text)]))
      | some (LoopRes.exc msg) =>
          (st1, some (JVal.obj [("success", JVal.bool false),
            ("error", JVal.str ("Exception while getting repositories: " ++ msg))]))

/-- `get_repository_codebase` (lines 226-325).  It does not attempt
automatic authentication: an unset `auth_headers` fails immediately
(lines 242-246); `ao` is accepted only so that every tool has a uniform
signature, mirroring that the function could call `authenticate_user` but
does not.  A `RecursionError` on the root call is caught by the outer
`except` at line 321. -/
def get_repository_codebase (cfg : Config) (ao : UserOutcome) (remote : SrcRemote)
    (fuel : Nat) (workspace repo_slug branch path : String) (st : Option String) :
    Option String × JVal :=
  let _ := cfg
  let _ := ao
  match st with
  | none =>
      (none, JVal.obj [("success", JVal.bool false),
        ("error", JVal.str "Not authenticated. Please authenticate first.")])
  | some _ =>
      if fuel = 0 then
        (st, JVal.obj [("success", JVal.bool false),
          ("error", JVal.str "Exception while getting codebase: maximum recursion depth exceeded")])
      else
        match get_directory_structure remote fuel path with
        | some tree =>
            (st, JVal.obj [("success", JVal.bool true),
              ("workspace", JVal.str workspace), ("repository", JVal.str repo_slug),
              ("branch", JVal.str branch), ("structure", tree.toJVal)])
        | none =>
            (st, JVal.obj [("success", JVal.bool false),
              ("error", JVal.str "Failed to get codebase structure")])

/-- `get_specific_file_content` (lines 327-382). -/
def get_specific_file_content (cfg : Config) (ao : UserOutcome) (remote : SrcRemote)
    (workspace repo_slug file_path branch : String) (st : Option String) :
    Option String × JVal :=
  match ensure_auth cfg ao st with
  | (st1, some env) => (st1, env)
  | (st1, none) =>
      match remote file_path with
      | SrcOutcome.resp status text _ =>
          if status = 200 then
            (st1, JVal.obj [("success", JVal.bool true),
              ("workspace", JVal.str workspace), ("repository", JVal.str repo_slug),
              ("file_path", JVal.str file_path), ("branch", JVal.str branch),
              ("content", JVal.str text), ("size", JVal.num text.length)])
          else
            (st1, JVal.obj [("success", JVal.bool false),
              ("error", JVal.str ("Could not fetch file " ++ file_path ++ " (Status: " ++ toString status ++ ")"))])
      | SrcOutcome.exc msg =>
          (st1, JVal.obj [("success", JVal.bool false),
            ("error", JVal.str ("Exception while fetching " ++ file_path ++ ": " ++ msg))])

/-- The tuple of extensions at line 451 of the source, used to filter
`code_files` in `get_repository_files_list` (a longer list than
`codebaseExtensions`, and applied to the lower-cased path). -/
def code_extensions : List String :=
  [".py", ".js", ".ts", ".java", ".cpp", ".c", ".h", ".html", ".css",
   ".json", ".xml", ".md", ".txt", ".yml", ".yaml", ".sh", ".bat", ".ps1",
   ".dart", ".kt", ".swift", ".rb", ".php", ".go", ".rs", ".cs", ".vb", ".sql"]

/-- The `for item in data.get('values', [])` loop of
`get_files_recursive` (lines 426-435).  `recurse` is the recursive call
with the accumulated `all_files` threaded through (the Python closure
mutates the outer `all_files`); a nested call's return value is ignored.
Attempting a nested call with zero budget raises `RecursionError`, caught
by this frame's `except`, which returns `False` (second component) with
the files appended so far kept. -/
def walk_values (fuel : Nat) (recurse : String → List String → List String × Bool) :
    List Entry → List String → List String × Bool
  | [], acc => (acc, true)
  | item :: rest, acc =>
      if item.type = "commit_file" then
        walk_values fuel recurse rest (acc ++ [item.path])
      else if item.type = "commit_directory" then
        if fuel = 0 then (acc, false)
        else walk_values fuel recurse rest (recurse item.path acc).1
      else walk_values fuel recurse rest acc

/-- `get_files_recursive` (lines 415-440), as a function of the depth
budget, directory path and accumulated `all_files`.  The boolean is
Python's return value: `true` for the implicit `None` (loop completed),
`false` for `return False` (listing failure, exception, or a
`RecursionError` caught in this frame). -/
def get_files_recursive (remote : SrcRemote) : Nat → String → List String → List String × Bool
  | 0, _, acc => (acc, false)
  | Nat.succ fuel, dir_path, acc =>
      match remote dir_path with
      | SrcOutcome.resp status _ values =>
          if status = 200 then
            walk_values fuel (fun p a => get_files_recursive remote fuel p a) values acc
          else (acc, false)
      | SrcOutcome.exc _ => (acc, false)

/-- `get_repository_files_list` (lines 384-468).  A `RecursionError` on
the root call (zero fuel) is caught by the outer `except` at line 464.
Python's `if success is False` treats only an explicit `False` as failure
(the implicit `None` of a completed walk passes). -/
def get_repository_files_list (cfg : Config) (ao : UserOutcome) (remote : SrcRemote)
    (fuel : Nat) (workspace repo_slug branch path : String) (st : Option String) :
    Option String × JVal :=
  match ensure_auth cfg ao st with
  | (st1, some env) => (st1, env)
  | (st1, none) =>
      if fuel = 0 then
        (st1, JVal.obj [("success", JVal.bool false),
          ("error", JVal.str "Exception while getting files list: maximum recursion depth exceeded")])
      else
        let r := get_files_recursive remote fuel path []
        if r.2 = false then
          (st1, JVal.obj [("success", JVal.bool false),
            ("error", JVal.str "Failed to get files list")])
        else
          let code_files := r.1.filter (fun f => code_extensions.any (fun e => strEndsWith f.toLower e))
          (st1, JVal.obj [("success", JVal.bool true),
            ("workspace", JVal.str workspace), ("repository", JVal.str repo_slug),
            ("branch", JVal.str branch),
            ("all_files", JVal.arr (r.1.map JVal.str)),
            ("code_files", JVal.arr (code_files.map JVal.str)),
            ("total_files", JVal.num r.1.length),
            ("code_files_count", JVal.num code_files.length)])

/-- Outcome of the local file write in `save_codebase_to_file`: either the
`open`/`json.dump` succeed or some exception is raised. -/
inductive WriteOutcome where
  | ok
  | exc (msg : String)

/-- `save_codebase_to_file` (lines 470-518).  `timestamp` stands for
`datetime.now().isoformat()`.  The `codebase_result["structure"]` lookup
would raise `KeyError` were the key absent (caught by the enclosing
`except`); on a success envelope it is always present. -/
def save_codebase_to_file (cfg : Config) (ao : UserOutcome) (remote : SrcRemote)
    (fuel : Nat) (workspace repo_slug filename branch path : String)
    (timestamp : String) (w : WriteOutcome) (st : Option String) :
    Option String × JVal :=
  let _ := timestamp
  let r := get_repository_codebase cfg ao remote fuel workspace repo_slug branch path st
  if truthy (jget r.2 "success") then
    match jget r.2 "structure" with
    | some _ =>
        match w with
        | WriteOutcome.ok =>
            (r.1, JVal.obj [("success", JVal.bool true),
              ("filename", JVal.str filename), ("workspace", JVal.str workspace),
              ("repository", JVal.str repo_slug),
              ("message", JVal.str ("Codebase structure saved to " ++ filename))])
        | WriteOutcome.exc msg =>
            (r.1, JVal.obj [("success", JVal.bool false),
              ("error", JVal.str ("Error saving to file: " ++ msg))])
    | none =>
        (r.1, JVal.obj [("success", JVal.bool false),
          ("error", JVal.str "Error saving to file: structure")])
  else (r.1, r.2)

/-- The uniform-envelope shape: the result dict carries a `success` key
holding a boolean. -/
def hasBoolSuccess (j : JVal) : Bool :=
  match jget j "success" with
  | some (JVal.bool _) => true
  | _ => false

/-- The auth-state update `authenticate_user` actually performs: the new
headers exactly when an email was resolved and the user endpoint returned
status 200 — even when the success path is then derailed by a missing
`username` key, because the assignment to `auth_headers` at line 92
precedes the `user_data['username']` lookup at line 96; the previous state
in every other case. -/
def authStateAfter (cfg : Config) (o : UserOutcome) (email : Option String)
    (st : Option String) : Option String :=
  match resolveEmail cfg email, o with
  | some em, UserOutcome.resp status _ _ =>
      if status = 200 then some (get_headers_with_email cfg em) else st
  | _, _ => st

/-! ## Concrete instances used to exercise the theorems -/

/-- A sample configuration with both environment variables set. -/
def cfg0 : Config := ⟨"token123", "dev@example.com"⟩

/-- An auth endpoint that raises (used where authentication is not
consulted or must fail). -/
def ao0 : UserOutcome := UserOutcome.exc "network down"

/-- An auth endpoint answering 401. -/
def aoFail401 : UserOutcome := UserOutcome.resp 401 "unauthorized" []

/-- An auth endpoint answering 200 with a body lacking `username`. -/
def aoNoUser : UserOutcome := UserOutcome.resp 200 "{}" []

/-- A remote whose every listing answers 404. -/
def c1Remote : SrcRemote := fun _ => SrcOutcome.resp 404 "not found" []

/-- A remote with one file and one subdirectory whose listing answers
500. -/
def c2Remote : SrcRemote := fun p =>
  if p = "" then
    SrcOutcome.resp 200 "" [⟨"commit_file", "main.py", 10⟩, ⟨"commit_directory", "sub", 0⟩]
  else if p = "main.py" then SrcOutcome.resp 200 "print(1)" []
  else SrcOutcome.resp 500 "boom" []

/-- A remote with a single `.PY` file whose content is fetchable. -/
def c3Remote : SrcRemote := fun p =>
  if p = "" then SrcOutcome.resp 200 "" [⟨"commit_file", "a.PY", 5⟩]
  else SrcOutcome.resp 200 "content" []

/-- A remote with a single `.py` file whose content GET answers 503. -/
def c4Remote : SrcRemote := fun p =>
  if p = "" then SrcOutcome.resp 200 "" [⟨"commit_file", "a.py", 5⟩]
  else SrcOutcome.resp 503 "unavailable" []

/-- A repositories endpoint serving three 200 pages of two entries each,
the third lacking `next`. -/
def c5Oracle : RepoRemote := fun u =>
  if u = "https://api.bitbucket.org/2.0/repositories" then
    PageOutcome.resp 200 "" [JVal.num 1, JVal.num 2] (some "p2")
  else if u = "p2" then PageOutcome.resp 200 "" [JVal.num 3, JVal.num 4] (some "p3")
  else if u = "p3" then PageOutcome.resp 200 "" [JVal.num 5, JVal.num 6] none
  else PageOutcome.exc "unexpected"

/-- A remote with a single `.png` file whose content would be
fetchable. -/
def c7Remote : SrcRemote := fun p =>
  if p = "" then SrcOutcome.resp 200 "" [⟨"commit_file", "logo.png", 9⟩]
  else SrcOutcome.resp 200 "PNGDATA" []

/-- Two separately written but pointwise-equal remotes. -/
def c8RemoteA : SrcRemote := fun _ => SrcOutcome.exc "down"

/-- See `c8RemoteA`. -/
def c8RemoteB : SrcRemote := fun _ => SrcOutcome.exc "down"

/-- A workspaces endpoint answering 200 with one workspace. -/
def wso0 : WsOutcome := WsOutcome.resp 200 "" [JVal.str "wsA"]

/-- A repositories endpoint that raises on every page. -/
def ro0 : RepoRemote := fun _ => PageOutcome.exc "down"

/-! ## Helper lemmas -/

/-- A directory whose GET fails yields `None` from
`get_directory_structure`, at every depth budget. -/
theorem gds_none_of_listingFails (remote : SrcRemote) (p : String)
    (h : listingFails remote p = true) :
    ∀ fuel, get_directory_structure remote fuel p = none := by
  intro fuel
  cases fuel with
  | zero => rfl
  | succ f =>
      unfold listingFails at h
      unfold get_directory_structure
      rcases hr : remote p with ⟨status, text, values⟩ | m
      · rw [hr] at h
        have hs : status ≠ 200 := by simpa using h
        simp [hs]
      · simp

/-- A frame with budget `fuel + 1` whose own listing returns 200 builds
its node from the children computation `processAt`. -/
theorem gds_succ_200 (remote : SrcRemote) (fuel : Nat) (root text : String)
    (values : List Entry)
    (hroot : remote root = SrcOutcome.resp 200 text values) :
    get_directory_structure remote (fuel + 1) root =
      match processAt remote fuel values with
      | some children => some (TreeNode.dir root children)
      | none => none := by
  unfold get_directory_structure processAt
  rw [hroot]
  simp

/-- A `some` result of `get_directory_structure` forces a 200 root listing
and a directory node at the requested path. -/
theorem gds_some_shape (remote : SrcRemote) (fuel : Nat) (p : String) (t : TreeNode)
    (h : get_directory_structure remote fuel p = some t) :
    ∃ text values children, remote p = SrcOutcome.resp 200 text values ∧
      t = TreeNode.dir p children := by
  cases fuel with
  | zero => simp [get_directory_structure] at h
  | succ f =>
      unfold get_directory_structure at h
      split at h
      next status text values heq =>
        split at h
        next hs =>
          split at h
          next children hpv =>
            subst hs
            cases h
            exact ⟨text, values, children, heq, rfl⟩
          next hpv => exact absurd h (by simp)
        next hs => exact absurd h (by simp)
      next m heq => exact absurd h (by simp)

/-- `processValues` over a concatenation: both halves must succeed, and
their node lists concatenate. -/
theorem processValues_append (remote : SrcRemote) (fuel : Nat)
    (rec : String → Option TreeNode) (a b : List Entry) :
    processValues remote fuel rec (a ++ b) =
      match processValues remote fuel rec a, processValues remote fuel rec b with
      | some xs, some ys => some (xs ++ ys)
      | _, _ => none := by
  induction a with
  | nil =>
      rcases hb : processValues remote fuel rec b with _ | ys <;>
        simp [processValues, hb]
  | cons item rest ih =>
      by_cases hf : item.type = "commit_file"
      · rcases hr : processValues remote fuel rec rest with _ | ns <;>
          rcases hb : processValues remote fuel rec b with _ | ys <;>
          simp [processValues, hf, ih, hr, hb, List.append_eq]
      · by_cases hd : item.type = "commit_directory"
        · by_cases hz : fuel = 0
          · simp [processValues, hf, hd, hz]
          · rcases hrec : rec item.path with _ | sub <;>
              rcases hr : processValues remote fuel rec rest with _ | ns <;>
              rcases hb : processValues remote fuel rec b with _ | ys <;>
              simp [processValues, hf, hd, hz, hrec, ih, hr, hb, List.append_eq]
        · rcases hr : processValues remote fuel rec rest with _ | ns <;>
            rcases hb : processValues remote fuel rec b with _ | ys <;>
            simp [processValues, hf, hd, ih, hr, hb, List.append_eq]

/-- A single `commit_file` entry contributes exactly its File node. -/
theorem processValues_single_file (remote : SrcRemote) (fuel : Nat)
    (rec : String → Option TreeNode) (f : Entry) (hf : f.type = "commit_file") :
    processValues remote fuel rec [f] = some [fileNode remote f] := by
  simp [processValues, hf]

/-- A single `commit_directory` entry whose recursion returns `None` is
silently omitted, provided the frame still has budget to make the call. -/
theorem processValues_single_dir_none (remote : SrcRemote) (fuel : Nat)
    (rec : String → Option TreeNode) (d : Entry)
    (hd : d.type = "commit_directory")
    (hz : fuel ≠ 0) (hrec : rec d.path = none) :
    processValues remote fuel rec [d] = some [] := by
  have hnf : ¬ d.type = "commit_file" := by rw [hd]; decide
  simp [processValues, hd, hnf, hz, hrec]

/-- The success envelope of `get_repository_codebase` for a root whose
listing returned 200 and whose children processing completed. -/
theorem codebase_success_env (cfg : Config) (ao : UserOutcome) (remote : SrcRemote)
    (fuel : Nat) (ws rs br root h text : String) (values : List Entry) (ns : List TreeNode)
    (hroot : remote root = SrcOutcome.resp 200 text values)
    (hvals : processAt remote fuel values = some ns) :
    get_repository_codebase cfg ao remote (fuel + 1) ws rs br root (some h)
      = (some h, JVal.obj [("success", JVal.bool true),
          ("workspace", JVal.str ws), ("repository", JVal.str rs),
          ("branch", JVal.str br),
          ("structure", (TreeNode.dir root ns).toJVal)]) := by
  have hgds : get_directory_structure remote (fuel + 1) root
      = some (TreeNode.dir root ns) := by
    rw [gds_succ_200 remote fuel root text values hroot, hvals]
  simp [get_repository_codebase, hgds]

/-- An object whose first key is a boolean `success` is a well-formed
envelope. -/
theorem hasBoolSuccess_cons (b : Bool) (kvs : List (String × JVal)) :
    hasBoolSuccess (JVal.obj (("success", JVal.bool b) :: kvs)) = true := by
  simp [hasBoolSuccess, jget, lookupKV]

/-- Every branch of `authenticate_user` returns an envelope with a boolean
`success`. -/
theorem auth_hasBoolSuccess (cfg : Config) (o : UserOutcome) (email : Option String)
    (st : Option String) :
    hasBoolSuccess (authenticate_user cfg o email st).2 = true := by
  rcases hre : resolveEmail cfg email with _ | em
  · simp [authenticate_user, hre, hasBoolSuccess, jget, lookupKV]
  · rcases o with ⟨status, text, body⟩ | m
    · by_cases hs : status = 200
      · rcases hu : lookupKV body "username" with _ | u <;>
          simp [authenticate_user, hre, hs, hu, hasBoolSuccess, jget, lookupKV]
      · simp [authenticate_user, hre, hs, hasBoolSuccess, jget, lookupKV]
    · simp [authenticate_user, hre, hasBoolSuccess, jget, lookupKV]

/-- An early return from the shared authentication preamble is always an
envelope with a boolean `success`. -/
theorem ensure_auth_env (cfg : Config) (ao : UserOutcome) (st : Option String) (env : JVal)
    (h : (ensure_auth cfg ao st).2 = some env) : hasBoolSuccess env = true := by
  rcases st with _ | hh
  · by_cases he : cfg.BITBUCKET_EMAIL ≠ ""
    · by_cases ht : truthy (jget (authenticate_user cfg ao none none).2 "success") = true
      · simp [ensure_auth, he, ht] at h
      · simp [ensure_auth, he, ht] at h
        rw [← h]
        exact auth_hasBoolSuccess cfg ao none none
    · simp [ensure_auth, he] at h
      rw [← h]
      exact hasBoolSuccess_cons false _
  · simp [ensure_auth] at h

/-- The preamble either keeps the state or adopts the state produced by
`authenticate_user`. -/
theorem ensure_auth_state (cfg : Config) (ao : UserOutcome) (st : Option String) :
    (ensure_auth cfg ao st).1 = st ∨
    (ensure_auth cfg ao st).1 = (authenticate_user cfg ao none st).1 := by
  rcases st with _ | hh
  · by_cases he : cfg.BITBUCKET_EMAIL ≠ ""
    · right
      by_cases ht : truthy (jget (authenticate_user cfg ao none none).2 "success") = true <;>
        simp [ensure_auth, he, ht]
    · left; simp [ensure_auth, he]
  · left; simp [ensure_auth]

/-- `get_workspaces` hands the preamble's state through unchanged. -/
theorem get_workspaces_state (cfg : Config) (ao : UserOutcome) (wo : WsOutcome)
    (st : Option String) :
    (get_workspaces cfg ao wo st).1 = (ensure_auth cfg ao st).1 := by
  rcases he : ensure_auth cfg ao st with ⟨st1, envOpt⟩
  rcases envOpt with _ | env
  · rcases wo with ⟨status, text, values⟩ | m
    · by_cases hs : status = 200 <;> simp [get_workspaces, he, hs]
    · simp [get_workspaces, he]
  · simp [get_workspaces, he]

/-- `get_repositories` hands the preamble's state through unchanged. -/
theorem get_repositories_state (cfg : Config) (ao : UserOutcome) (ro : RepoRemote)
    (fuel : Nat) (wsOpt : Option String) (psz : Nat) (st : Option String) :
    (get_repositories cfg ao ro fuel wsOpt psz st).1 = (ensure_auth cfg ao st).1 := by
  rcases he : ensure_auth cfg ao st with ⟨st1, envOpt⟩
  rcases envOpt with _ | env
  · rcases hl : repos_loop ro fuel (reposUrl wsOpt) [] with _ | res
    · simp [get_repositories, he, hl]
    · rcases res with repos | ⟨status, text⟩ | m <;> simp [get_repositories, he, hl]
  · simp [get_repositories, he]

/-- `get_specific_file_content` hands the preamble's state through
unchanged. -/
theorem get_specific_file_content_state (cfg : Config) (ao : UserOutcome)
    (remote : SrcRemote) (ws rs fp br : String) (st : Option String) :
    (get_specific_file_content cfg ao remote ws rs fp br st).1
      = (ensure_auth cfg ao st).1 := by
  rcases he : ensure_auth cfg ao st with ⟨st1, envOpt⟩
  rcases envOpt with _ | env
  · rcases hr : remote fp with ⟨status, text, values⟩ | m
    · by_cases hs : status = 200 <;> simp [get_specific_file_content, he, hr, hs]
    · simp [get_specific_file_content, he, hr]
  · simp [get_specific_file_content, he]

/-- `get_repository_files_list` hands the preamble's state through
unchanged. -/
theorem get_repository_files_list_state (cfg : Config) (ao : UserOutcome)
    (remote : SrcRemote) (fuel : Nat) (ws rs br p : String) (st : Option String) :
    (get_repository_files_list cfg ao remote fuel ws rs br p st).1
      = (ensure_auth cfg ao st).1 := by
  rcases he : ensure_auth cfg ao st with ⟨st1, envOpt⟩
  rcases envOpt with _ | env
  · by_cases hz : fuel = 0
    · simp [get_repository_files_list, he, hz]
    · by_cases hr : (get_files_recursive remote fuel p []).2 = false <;>
        simp [get_repository_files_list, he, hz, hr]
  · simp [get_repository_files_list, he]

/-- `get_repository_codebase` never changes the state. -/
theorem get_repository_codebase_state (cfg : Config) (ao : UserOutcome)
    (remote : SrcRemote) (fuel : Nat) (ws rs br p : String) (st : Option String) :
    (get_repository_codebase cfg ao remote fuel ws rs br p st).1 = st := by
  rcases st with _ | hh
  · rfl
  · by_cases hz : fuel = 0
    · simp [get_repository_codebase, hz]
    · rcases hg : get_directory_structure remote fuel p with _ | t <;>
        simp [get_repository_codebase, hz, hg]

/-- `get_workspaces` returns an envelope with a boolean `success`. -/
theorem get_workspaces_env (cfg : Config) (ao : UserOutcome) (wo : WsOutcome)
    (st : Option String) :
    hasBoolSuccess (get_workspaces cfg ao wo st).2 = true := by
  rcases he : ensure_auth cfg ao st with ⟨st1, envOpt⟩
  rcases envOpt with _ | env
  · rcases wo with ⟨status, text, values⟩ | m
    · by_cases hs : status = 200 <;>
        simp [get_workspaces, he, hs, hasBoolSuccess, jget, lookupKV]
    · simp [get_workspaces, he, hasBoolSuccess, jget, lookupKV]
  · have henv := ensure_auth_env cfg ao st env (by rw [he])
    simp [get_workspaces, he, henv]

/-- A terminating `get_repositories` returns an envelope with a boolean
`success`. -/
theorem get_repositories_env (cfg : Config) (ao : UserOutcome) (ro : RepoRemote)
    (fuel : Nat) (wsOpt : Option String) (psz : Nat) (st : Option String) (j : JVal)
    (h : (get_repositories cfg ao ro fuel wsOpt psz st).2 = some j) :
    hasBoolSuccess j = true := by
  rcases he : ensure_auth cfg ao st with ⟨st1, envOpt⟩
  rcases envOpt with _ | env
  · rcases hl : repos_loop ro fuel (reposUrl wsOpt) [] with _ | res
    · simp [get_repositories, he, hl] at h
    · rcases res with repos | ⟨status, text⟩ | m <;>
        · simp [get_repositories, he, hl] at h
          rw [← h]
          exact hasBoolSuccess_cons _ _
  · have henv := ensure_auth_env cfg ao st env (by rw [he])
    simp [get_repositories, he] at h
    rw [← h]
    exact henv

/-- `get_repository_codebase` returns an envelope with a boolean
`success`. -/
theorem get_repository_codebase_env (cfg : Config) (ao : UserOutcome)
    (remote : SrcRemote) (fuel : Nat) (ws rs br p : String) (st : Option String) :
    hasBoolSuccess (get_repository_codebase cfg ao remote fuel ws rs br p st).2
      = true := by
  rcases st with _ | hh
  · simp [get_repository_codebase, hasBoolSuccess, jget, lookupKV]
  · by_cases hz : fuel = 0
    · simp [get_repository_codebase, hz, hasBoolSuccess, jget, lookupKV]
    · rcases hg : get_directory_structure remote fuel p with _ | t <;>
        simp [get_repository_codebase, hz, hg, hasBoolSuccess, jget, lookupKV]

/-- `get_specific_file_content` returns an envelope with a boolean
`success`. -/
theorem get_specific_file_content_env (cfg : Config) (ao : UserOutcome)
    (remote : SrcRemote) (ws rs fp br : String) (st : Option String) :
    hasBoolSuccess (get_specific_file_content cfg ao remote ws rs fp br st).2
      = true := by
  rcases he : ensure_auth cfg ao st with ⟨st1, envOpt⟩
  rcases envOpt with _ | env
  · rcases hr : remote fp with ⟨status, text, values⟩ | m
    · by_cases hs : status = 200 <;>
        simp [get_specific_file_content, he, hr, hs, hasBoolSuccess, jget, lookupKV]
    · simp [get_specific_file_content, he, hr, hasBoolSuccess, jget, lookupKV]
  · have henv := ensure_auth_env cfg ao st env (by rw [he])
    simp [get_specific_file_content, he, henv]

/-- `get_repository_files_list` returns an envelope with a boolean
`success`. -/
theorem get_repository_files_list_env (cfg : Config) (ao : UserOutcome)
    (remote : SrcRemote) (fuel : Nat) (ws rs br p : String) (st : Option String) :
    hasBoolSuccess (get_repository_files_list cfg ao remote fuel ws rs br p st).2
      = true := by
  rcases he : ensure_auth cfg ao st with ⟨st1, envOpt⟩
  rcases envOpt with _ | env
  · by_cases hz : fuel = 0
    · simp [get_repository_files_list, he, hz, hasBoolSuccess, jget, lookupKV]
    · by_cases hr : (get_files_recursive remote fuel p []).2 = false <;>
        simp [get_repository_files_list, he, hz, hr, hasBoolSuccess, jget, lookupKV]
  · have henv := ensure_auth_env cfg ao st env (by rw [he])
    simp [get_repository_files_list, he, henv]

/-- `save_codebase_to_file` returns an envelope with a boolean
`success`. -/
theorem save_codebase_to_file_env (cfg : Config) (ao : UserOutcome) (remote : SrcRemote)
    (fuel : Nat) (ws rs fn br p ts : String) (w : WriteOutcome) (st : Option String) :
    hasBoolSuccess (save_codebase_to_file cfg ao remote fuel ws rs fn br p ts w st).2
      = true := by
  by_cases ht : truthy (jget
      (get_repository_codebase cfg ao remote fuel ws rs br p st).2 "success") = true
  · rcases hs : jget (get_repository_codebase cfg ao remote fuel ws rs br p st).2
        "structure" with _ | s
    · simp only [save_codebase_to_file, ht, hs, if_true]
      exact hasBoolSuccess_cons false _
    · rcases w with _ | m <;>
      · simp only [save_codebase_to_file, ht, hs, if_true]
        exact hasBoolSuccess_cons _ _
  · simp only [save_codebase_to_file, ht, if_false]
    exact get_repository_codebase_env cfg ao remote fuel ws rs br p st

/-! ## Claims -/

/-- Claim C1: for every fetch of a repository codebase, if the listing
request for the root startPath returns a non-success status or raises, the
operation returns a failure envelope (success false, state unchanged) with
no partial tree in the result; and a success envelope, hence a Directory
node under `structure`, arises only when the root listing itself returned
200. -/
theorem C1_root_listing_failure (cfg : Config) (ao : UserOutcome) (remote : SrcRemote)
    (fuel : Nat) (ws rs br p h : String)
    (hfail : listingFails remote p = true) :
    (get_repository_codebase cfg ao remote fuel ws rs br p (some h)).1 = some h ∧
    truthy (jget (get_repository_codebase cfg ao remote fuel ws rs br p (some h)).2
      "success") = false ∧
    jget (get_repository_codebase cfg ao remote fuel ws rs br p (some h)).2
      "structure" = none ∧
    (∀ (st : Option String) (remote2 : SrcRemote) (fuel2 : Nat),
      truthy (jget (get_repository_codebase cfg ao remote2 fuel2 ws rs br p st).2
        "success") = true →
      ∃ text values children,
        remote2 p = SrcOutcome.resp 200 text values ∧
        jget (get_repository_codebase cfg ao remote2 fuel2 ws rs br p st).2
          "structure" = some (TreeNode.dir p children).toJVal) := by
  have hg := gds_none_of_listingFails remote p hfail
  refine ⟨?_, ?_, ?_, ?_⟩
  · by_cases hz : fuel = 0 <;> simp [get_repository_codebase, hz, hg]
  · by_cases hz : fuel = 0 <;>
      simp [get_repository_codebase, hz, hg, jget, lookupKV, truthy]
  · by_cases hz : fuel = 0 <;>
      simp [get_repository_codebase, hz, hg, jget, lookupKV]
  · intro st remote2 fuel2 hsucc
    rcases st with _ | h2
    · simp [get_repository_codebase, jget, lookupKV, truthy] at hsucc
    · by_cases hz : fuel2 = 0
      · simp [get_repository_codebase, hz, jget, lookupKV, truthy] at hsucc
      · rcases hgds : get_directory_structure remote2 fuel2 p with _ | t
        · simp [get_repository_codebase, hz, hgds, jget, lookupKV, truthy] at hsucc
        · rcases gds_some_shape remote2 fuel2 p t hgds with
            ⟨text, values, children, hresp, ht⟩
          refine ⟨text, values, children, hresp, ?_⟩
          subst ht
          simp [get_repository_codebase, hz, hgds, jget, lookupKV]

/-- Witness for C1 on a concrete 404 root listing. -/
theorem C1_witness :
    listingFails c1Remote "" = true ∧
    truthy (jget (get_repository_codebase cfg0 ao0 c1Remote 5 "w" "r" "main" ""
      (some "h")).2 "success") = false ∧
    jget (get_repository_codebase cfg0 ao0 c1Remote 5 "w" "r" "main" ""
      (some "h")).2 "structure" = none :=
  ⟨by decide,
    (C1_root_listing_failure cfg0 ao0 c1Remote 5 "w" "r" "main" "" "h" (by decide)).2.1,
    (C1_root_listing_failure cfg0 ao0 c1Remote 5 "w" "r" "main" "" "h" (by decide)).2.2.1⟩

/-- Claim C2: a directory entry strictly below the root whose recursive
listing fails (non-success status or exception) leaves the enclosing fetch
successful, and its subtree is entirely absent from the parent's children
— the children are exactly those produced by the surrounding entries, with
no error marker.  The final conjunct states the same omission for the
frame at any depth: wherever an entry of type `commit_directory` is
listed, a `None` from the recursive call leaves the surrounding children
untouched. -/
theorem C2_nested_listing_failure (cfg : Config) (ao : UserOutcome) (remote : SrcRemote)
    (fuel : Nat) (ws rs br root h text : String) (pre post : List Entry) (d : Entry)
    (ns1 ns2 : List TreeNode)
    (hroot : remote root = SrcOutcome.resp 200 text (pre ++ d :: post))
    (htype : d.type = "commit_directory")
    (hfail : listingFails remote d.path = true)
    (hpre : processAt remote (fuel + 1) pre = some ns1)
    (hpost : processAt remote (fuel + 1) post = some ns2) :
    (get_repository_codebase cfg ao remote (fuel + 2) ws rs br root (some h)
      = (some h, JVal.obj [("success", JVal.bool true),
          ("workspace", JVal.str ws), ("repository", JVal.str rs),
          ("branch", JVal.str br),
          ("structure", (TreeNode.dir root (ns1 ++ ns2)).toJVal)])) ∧
    (∀ (remote2 : SrcRemote) (fuel2 : Nat) (rec2 : String → Option TreeNode)
        (pre2 post2 : List Entry) (m1 m2 : List TreeNode),
      fuel2 ≠ 0 → rec2 d.path = none →
      processValues remote2 fuel2 rec2 pre2 = some m1 →
      processValues remote2 fuel2 rec2 post2 = some m2 →
      processValues remote2 fuel2 rec2 (pre2 ++ d :: post2) = some (m1 ++ m2)) := by
  refine ⟨?_, ?_⟩
  · have hd_none : get_directory_structure remote (fuel + 1) d.path = none :=
      gds_none_of_listingFails remote d.path hfail (fuel + 1)
    have hsingle : processValues remote (fuel + 1)
        (fun q => get_directory_structure remote (fuel + 1) q) [d] = some [] :=
      processValues_single_dir_none remote (fuel + 1) _ d htype (Nat.succ_ne_zero fuel) hd_none
    have hall : processAt remote (fuel + 1) (pre ++ d :: post) = some (ns1 ++ ns2) := by
      unfold processAt at hpre hpost ⊢
      have h1 := processValues_append remote (fuel + 1)
        (fun q => get_directory_structure remote (fuel + 1) q) pre (d :: post)
      have h2 := processValues_append remote (fuel + 1)
        (fun q => get_directory_structure remote (fuel + 1) q) [d] post
      simp only [List.singleton_append] at h2
      rw [h1, h2, hsingle, hpre, hpost]
      simp
    exact codebase_success_env cfg ao remote (fuel + 1) ws rs br root h text _ _ hroot hall
  · intro remote2 fuel2 rec2 pre2 post2 m1 m2 hz2 hrec2 hm1 hm2
    have hsingle2 : processValues remote2 fuel2 rec2 [d] = some [] :=
      processValues_single_dir_none remote2 fuel2 rec2 d htype hz2 hrec2
    have h1 := processValues_append remote2 fuel2 rec2 pre2 (d :: post2)
    have h2 := processValues_append remote2 fuel2 rec2 [d] post2
    simp only [List.singleton_append] at h2
    rw [h1, h2, hsingle2, hm1, hm2]
    simp

/-- Witness for C2: the `sub` directory answers 500; the fetch still
succeeds and contains only the sibling file, and the same omission holds
in a nested frame. -/
theorem C2_witness :
    get_repository_codebase cfg0 ao0 c2Remote 2 "w" "r" "main" "" (some "h")
      = (some "h", JVal.obj [("success", JVal.bool true),
          ("workspace", JVal.str "w"), ("repository", JVal.str "r"),
          ("branch", JVal.str "main"),
          ("structure", (TreeNode.dir ""
            [TreeNode.file "main.py" 10 (some "print(1)")]).toJVal)]) ∧
    processValues c2Remote 1 (fun q => get_directory_structure c2Remote 1 q)
      ([⟨"commit_file", "main.py", 10⟩] ++ ⟨"commit_directory", "sub", 0⟩ :: [])
      = some ([TreeNode.file "main.py" 10 (some "print(1)")] ++ []) :=
  ⟨(C2_nested_listing_failure cfg0 ao0 c2Remote 0 "w" "r" "main" "" "h" ""
      [⟨"commit_file", "main.py", 10⟩] [] ⟨"commit_directory", "sub", 0⟩
      [TreeNode.file "main.py" 10 (some "print(1)")] []
      rfl rfl (by decide) rfl rfl).1,
   (C2_nested_listing_failure cfg0 ao0 c2Remote 0 "w" "r" "main" "" "h" ""
      [⟨"commit_file", "main.py", 10⟩] [] ⟨"commit_directory", "sub", 0⟩
      [TreeNode.file "main.py" 10 (some "print(1)")] []
      rfl rfl (by decide) rfl rfl).2 c2Remote 1
      (fun q => get_directory_structure c2Remote 1 q)
      [⟨"commit_file", "main.py", 10⟩] []
      [TreeNode.file "main.py" 10 (some "print(1)")] []
      (by decide) rfl rfl rfl⟩

/-- Claim C3 counterexample: the content-fetch decision of
`get_directory_structure` is case-SENSITIVE — `'a.PY'` does not qualify
although `'a.py'` does, and a fetch over a remote with a single fetchable
`.PY` file leaves its content absent. -/
theorem C3_counterexample :
    shouldFetchContent "a.PY" = false ∧ shouldFetchContent "a.py" = true ∧
    get_directory_structure c3Remote 2 ""
      = some (TreeNode.dir "" [TreeNode.file "a.PY" 5 none]) ∧
    get_file_contents c3Remote "a.PY" = "content" :=
  ⟨by decide, by decide, rfl, rfl⟩

/-- Claim C3 (amended): the decision to fetch a file's content is a
case-sensitive suffix match of the file path against the fixed allow-list
`codebaseExtensions`; upper-case variants such as `.PY` or `.Md` do not
qualify. -/
theorem C3_amended_case_sensitive (remote : SrcRemote) (fuel : Nat)
    (rec : String → Option TreeNode) (f : Entry) (rest : List Entry) (ns : List TreeNode)
    (htype : f.type = "commit_file")
    (hrest : processValues remote fuel rec rest = some ns) :
    processValues remote fuel rec (f :: rest)
      = some (TreeNode.file f.path f.size
          (if shouldFetchContent f.path then some (get_file_contents remote f.path)
           else none) :: ns) ∧
    shouldFetchContent "a.py" = true ∧ shouldFetchContent "a.PY" = false ∧
    shouldFetchContent "b.md" = true ∧ shouldFetchContent "b.Md" = false := by
  refine ⟨?_, by decide, by decide, by decide, by decide⟩
  simp [processValues, htype, hrest, fileNode]

/-- Witness for the amended C3. -/
theorem C3_witness :
    processValues c3Remote 1 (fun q => get_directory_structure c3Remote 1 q)
      [⟨"commit_file", "a.PY", 5⟩]
      = some [TreeNode.file "a.PY" 5
          (if shouldFetchContent "a.PY" then some (get_file_contents c3Remote "a.PY")
           else none)] :=
  (C3_amended_case_sensitive c3Remote 1 (fun q => get_directory_structure c3Remote 1 q)
    ⟨"commit_file", "a.PY", 5⟩ [] [] rfl rfl).1

/-- Claim C4: an allow-listed file whose content GET fails (non-success
status or exception) does not fail the enclosing fetch: the File node is
kept in place with the inline error string of `get_file_contents` as its
content, and the remaining entries are still processed. -/
theorem C4_content_fetch_failure (cfg : Config) (ao : UserOutcome) (remote : SrcRemote)
    (fuel : Nat) (ws rs br root h text : String) (pre post : List Entry) (f : Entry)
    (ns1 ns2 : List TreeNode)
    (hroot : remote root = SrcOutcome.resp 200 text (pre ++ f :: post))
    (htype : f.type = "commit_file")
    (hext : shouldFetchContent f.path = true)
    (hfail : listingFails remote f.path = true)
    (hpre : processAt remote (fuel + 1) pre = some ns1)
    (hpost : processAt remote (fuel + 1) post = some ns2) :
    get_repository_codebase cfg ao remote (fuel + 2) ws rs br root (some h)
      = (some h, JVal.obj [("success", JVal.bool true),
          ("workspace", JVal.str ws), ("repository", JVal.str rs),
          ("branch", JVal.str br),
          ("structure", (TreeNode.dir root
            (ns1 ++ TreeNode.file f.path f.size
              (some (get_file_contents remote f.path)) :: ns2)).toJVal)]) ∧
    (∀ s t v, remote f.path = SrcOutcome.resp s t v →
       get_file_contents remote f.path
         = "Error: Could not fetch file " ++ f.path ++ " (Status: " ++ toString s ++ ")") ∧
    (∀ m, remote f.path = SrcOutcome.exc m →
       get_file_contents remote f.path
         = "Error: Exception while fetching " ++ f.path ++ ": " ++ m) := by
  have hnode : fileNode remote f
      = TreeNode.file f.path f.size (some (get_file_contents remote f.path)) := by
    simp [fileNode, hext]
  refine ⟨?_, ?_, ?_⟩
  · have hsingle : processValues remote (fuel + 1)
        (fun q => get_directory_structure remote (fuel + 1) q) [f]
        = some [TreeNode.file f.path f.size (some (get_file_contents remote f.path))] := by
      rw [processValues_single_file remote (fuel + 1) _ f htype, hnode]
    have hall : processAt remote (fuel + 1) (pre ++ f :: post)
        = some (ns1 ++ TreeNode.file f.path f.size
            (some (get_file_contents remote f.path)) :: ns2) := by
      unfold processAt at hpre hpost ⊢
      have h1 := processValues_append remote (fuel + 1)
        (fun q => get_directory_structure remote (fuel + 1) q) pre (f :: post)
      have h2 := processValues_append remote (fuel + 1)
        (fun q => get_directory_structure remote (fuel + 1) q) [f] post
      simp only [List.singleton_append] at h2
      rw [h1, h2, hsingle, hpre, hpost]
      simp
    exact codebase_success_env cfg ao remote (fuel + 1) ws rs br root h text _ _ hroot hall
  · intro s t v heq
    unfold listingFails at hfail
    rw [heq] at hfail
    have hs : s ≠ 200 := by simpa using hfail
    simp [get_file_contents, heq, hs]
  · intro m heq
    simp [get_file_contents, heq]

/-- Witness for C4: a 503 on the single file's content GET. -/
theorem C4_witness :
    get_repository_codebase cfg0 ao0 c4Remote 2 "w" "r" "main" "" (some "h")
      = (some "h", JVal.obj [("success", JVal.bool true),
          ("workspace", JVal.str "w"), ("repository", JVal.str "r"),
          ("branch", JVal.str "main"),
          ("structure", (TreeNode.dir ""
            [TreeNode.file "a.py" 5
              (some "Error: Could not fetch file a.py (Status: 503)")]).toJVal)]) :=
  (C4_content_fetch_failure cfg0 ao0 c4Remote 0 "w" "r" "main" "" "h" ""
    [] [] ⟨"commit_file", "a.py", 5⟩ [] []
    rfl rfl (by decide) (by decide) rfl rfl).1

/-- Claim C7: a file entry whose extension is not in the allow-list gets a
File node with absent content, and its node is the same for every remote
and recursion budget — no content request is issued for it. -/
theorem C7_disallowed_extension (cfg : Config) (ao : UserOutcome) (remote : SrcRemote)
    (fuel : Nat) (ws rs br root h text : String) (pre post : List Entry) (f : Entry)
    (ns1 ns2 : List TreeNode)
    (hroot : remote root = SrcOutcome.resp 200 text (pre ++ f :: post))
    (htype : f.type = "commit_file")
    (hext : shouldFetchContent f.path = false)
    (hpre : processAt remote (fuel + 1) pre = some ns1)
    (hpost : processAt remote (fuel + 1) post = some ns2) :
    get_repository_codebase cfg ao remote (fuel + 2) ws rs br root (some h)
      = (some h, JVal.obj [("success", JVal.bool true),
          ("workspace", JVal.str ws), ("repository", JVal.str rs),
          ("branch", JVal.str br),
          ("structure", (TreeNode.dir root
            (ns1 ++ TreeNode.file f.path f.size none :: ns2)).toJVal)]) ∧
    (∀ (remote2 : SrcRemote) (fuel2 : Nat) (rec2 : String → Option TreeNode),
        processValues remote2 fuel2 rec2 [f]
          = some [TreeNode.file f.path f.size none]) := by
  have hnode : ∀ remote2 : SrcRemote, fileNode remote2 f
      = TreeNode.file f.path f.size none := by
    intro remote2; simp [fileNode, hext]
  refine ⟨?_, ?_⟩
  · have hsingle : processValues remote (fuel + 1)
        (fun q => get_directory_structure remote (fuel + 1) q) [f]
        = some [TreeNode.file f.path f.size none] := by
      rw [processValues_single_file remote (fuel + 1) _ f htype, hnode]
    have hall : processAt remote (fuel + 1) (pre ++ f :: post)
        = some (ns1 ++ TreeNode.file f.path f.size none :: ns2) := by
      unfold processAt at hpre hpost ⊢
      have h1 := processValues_append remote (fuel + 1)
        (fun q => get_directory_structure remote (fuel + 1) q) pre (f :: post)
      have h2 := processValues_append remote (fuel + 1)
        (fun q => get_directory_structure remote (fuel + 1) q) [f] post
      simp only [List.singleton_append] at h2
      rw [h1, h2, hsingle, hpre, hpost]
      simp
    exact codebase_success_env cfg ao remote (fuel + 1) ws rs br root h text _ _ hroot hall
  · intro remote2 fuel2 rec2
    rw [processValues_single_file remote2 fuel2 rec2 f htype, hnode]

/-- Witness for C7: a `.png` whose content GET would succeed still yields
an absent content field. -/
theorem C7_witness :
    get_repository_codebase cfg0 ao0 c7Remote 2 "w" "r" "main" "" (some "h")
      = (some "h", JVal.obj [("success", JVal.bool true),
          ("workspace", JVal.str "w"), ("repository", JVal.str "r"),
          ("branch", JVal.str "main"),
          ("structure", (TreeNode.dir ""
            [TreeNode.file "logo.png" 9 none]).toJVal)]) ∧
    get_file_contents c7Remote "logo.png" = "PNGDATA" :=
  ⟨(C7_disallowed_extension cfg0 ao0 c7Remote 0 "w" "r" "main" "" "h" ""
      [] [] ⟨"commit_file", "logo.png", 9⟩ [] []
      rfl rfl (by decide) rfl rfl).1, rfl⟩

/-- The pagination loop consumes a followed chain page by page, appending
each page's `values` in order. -/
theorem repos_loop_chain (oracle : RepoRemote) (url : String) (pages : List (List JVal))
    (hchain : FollowedChain oracle url pages) :
    ∀ fuel acc, pages.length ≤ fuel →
      repos_loop oracle fuel url acc = some (LoopRes.done (acc ++ pages.flatten)) := by
  induction hchain with
  | last url text vals heq =>
      intro fuel acc hle
      cases fuel with
      | zero => simp at hle
      | succ g => simp [repos_loop, heq]
  | step url text vals nextUrl rest heq hrest ih =>
      intro fuel acc hle
      cases fuel with
      | zero => simp at hle
      | succ g =>
          have hg : rest.length ≤ g := by
            simpa using Nat.succ_le_succ_iff.mp (by simpa using hle)
          simp [repos_loop, heq, ih g (acc ++ vals) hg, List.append_assoc]

/-- Claim C5: `get_repositories` follows each successful page's `next`
URL until the field is absent, concatenating the pages' `values` in page
order, with `count` the total length. -/
theorem C5_pagination (cfg : Config) (ao : UserOutcome) (ro : RepoRemote) (fuel : Nat)
    (wsOpt : Option String) (psz : Nat) (h : String) (pages : List (List JVal))
    (hchain : FollowedChain ro (reposUrl wsOpt) pages)
    (hfuel : pages.length ≤ fuel) :
    get_repositories cfg ao ro fuel wsOpt psz (some h)
      = (some h, some (JVal.obj [("success", JVal.bool true),
          ("repositories", JVal.arr pages.flatten),
          ("count", JVal.num pages.flatten.length)])) := by
  have hloop := repos_loop_chain ro (reposUrl wsOpt) pages hchain fuel [] hfuel
  simp [get_repositories, ensure_auth, hloop]

/-- Witness for C5: three pages of two entries each, the third lacking
`next`, aggregate to exactly six repositories in page order. -/
theorem C5_witness :
    get_repositories cfg0 ao0 c5Oracle 3 none 50 (some "h")
      = (some "h", some (JVal.obj [("success", JVal.bool true),
          ("repositories", JVal.arr [JVal.num 1, JVal.num 2, JVal.num 3,
            JVal.num 4, JVal.num 5, JVal.num 6]),
          ("count", JVal.num 6)])) :=
  C5_pagination cfg0 ao0 c5Oracle 3 none 50 "h"
    [[JVal.num 1, JVal.num 2], [JVal.num 3, JVal.num 4], [JVal.num 5, JVal.num 6]]
    (FollowedChain.step _ "" [JVal.num 1, JVal.num 2] "p2" _ rfl
      (FollowedChain.step "p2" "" [JVal.num 3, JVal.num 4] "p3" _ rfl
        (FollowedChain.last "p3" "" [JVal.num 5, JVal.num 6] rfl)))
    (by decide)

/-- Claim C6: every tool operation, for every input and every completed
remote behaviour (responses of any status, raised exceptions, missing JSON
keys), returns a result dict carrying a boolean `success` key; no raised
exception escapes to the caller — the model functions are total and the
exception oracles land in these same envelopes.  For `get_repositories`
the statement is conditional on the pagination loop terminating, the one
way the Python function can fail to return at all. -/
theorem C6_uniform_envelope (cfg : Config) (ao : UserOutcome) (wo : WsOutcome)
    (ro : RepoRemote) (remote : SrcRemote) (fuel : Nat)
    (ws rs br p fp fn ts : String) (email wsOpt : Option String) (psz : Nat)
    (w : WriteOutcome) (st : Option String) :
    hasBoolSuccess (authenticate_user cfg ao email st).2 = true ∧
    hasBoolSuccess (get_workspaces cfg ao wo st).2 = true ∧
    (∀ j, (get_repositories cfg ao ro fuel wsOpt psz st).2 = some j →
        hasBoolSuccess j = true) ∧
    hasBoolSuccess (get_repository_codebase cfg ao remote fuel ws rs br p st).2
      = true ∧
    hasBoolSuccess (get_specific_file_content cfg ao remote ws rs fp br st).2
      = true ∧
    hasBoolSuccess (get_repository_files_list cfg ao remote fuel ws rs br p st).2
      = true ∧
    hasBoolSuccess (save_codebase_to_file cfg ao remote fuel ws rs fn br p ts w st).2
      = true :=
  ⟨auth_hasBoolSuccess cfg ao email st,
   get_workspaces_env cfg ao wo st,
   fun j hj => get_repositories_env cfg ao ro fuel wsOpt psz st j hj,
   get_repository_codebase_env cfg ao remote fuel ws rs br p st,
   get_specific_file_content_env cfg ao remote ws rs fp br st,
   get_repository_files_list_env cfg ao remote fuel ws rs br p st,
   save_codebase_to_file_env cfg ao remote fuel ws rs fn br p ts w st⟩

/-- Witness for C6: a failing authentication, an exception-raising
repositories endpoint, and a file save, all yielding envelopes. -/
theorem C6_witness :
    hasBoolSuccess (authenticate_user cfg0 aoFail401 none none).2 = true ∧
    hasBoolSuccess (JVal.obj [("success", JVal.bool false),
      ("error", JVal.str "Exception while getting repositories: down")]) = true ∧
    hasBoolSuccess (save_codebase_to_file cfg0 ao0 c1Remote 3 "w" "r" "f.json" "main" ""
      "2026-10-12T00:00:00" WriteOutcome.ok (some "h")).2 = true :=
  ⟨(C6_uniform_envelope cfg0 aoFail401 wso0 ro0 c1Remote 3 "w" "r" "main" "" "fp"
      "f.json" "2026-10-12T00:00:00" none none 50 WriteOutcome.ok none).1,
   (C6_uniform_envelope cfg0 ao0 wso0 ro0 c1Remote 3 "w" "r" "main" "" "fp"
      "f.json" "2026-10-12T00:00:00" none none 50 WriteOutcome.ok (some "h")).2.2.1
      (JVal.obj [("success", JVal.bool false),
        ("error", JVal.str "Exception while getting repositories: down")]) rfl,
   (C6_uniform_envelope cfg0 ao0 wso0 ro0 c1Remote 3 "w" "r" "main" "" "fp"
      "f.json" "2026-10-12T00:00:00" none none 50 WriteOutcome.ok
      (some "h")).2.2.2.2.2.2⟩

/-- Claim C8: the codebase fetch is deterministic in the remote — when
every request returns the same response in both runs, two invocations of
`get_repository_codebase` with the same arguments return identical
results, child order and content fields included. -/
theorem C8_deterministic (cfg : Config) (ao : UserOutcome) (remote remote2 : SrcRemote)
    (fuel : Nat) (ws rs br p : String) (st : Option String)
    (hagree : ∀ q, remote q = remote2 q) :
    get_repository_codebase cfg ao remote fuel ws rs br p st
      = get_repository_codebase cfg ao remote2 fuel ws rs br p st := by
  have hre : remote = remote2 := funext hagree
  rw [hre]

/-- Witness for C8 on two separately defined, pointwise-equal remotes. -/
theorem C8_witness :
    get_repository_codebase cfg0 ao0 c8RemoteA 3 "w" "r" "main" "" (some "h")
      = get_repository_codebase cfg0 ao0 c8RemoteB 3 "w" "r" "main" "" (some "h") :=
  C8_deterministic cfg0 ao0 c8RemoteA c8RemoteB 3 "w" "r" "main" "" (some "h")
    (fun _ => rfl)

/-- Claim C9 counterexample: the user endpoint answers 200 with a JSON
body lacking `username`.  The `KeyError` makes `authenticate_user` return
a failure envelope (an exception failure in the claim's taxonomy), yet
`auth_headers` was already reassigned before the lookup, so it does NOT
retain its previous value `None`. -/
theorem C9_counterexample :
    truthy (jget (authenticate_user cfg0 aoNoUser (some "user@example.com") none).2
      "success") = false ∧
    (authenticate_user cfg0 aoNoUser (some "user@example.com") none).2
      = JVal.obj [("success", JVal.bool false),
          ("error", JVal.str "Exception during authentication: username")] ∧
    (authenticate_user cfg0 aoNoUser (some "user@example.com") none).1
      = some (get_headers_with_email cfg0 "user@example.com") ∧
    some (get_headers_with_email cfg0 "user@example.com") ≠ (none : Option String) :=
  ⟨rfl, rfl, rfl, by simp⟩

/-- Claim C9 (amended): `auth_headers` is mutated only by
`authenticate_user` (the other six tools keep the state or adopt the state
their internal `authenticate_user` call produced), and `authenticate_user`
changes it exactly when an email was resolved and the user endpoint
returned status 200 — including the case where the response JSON lacks
`username`, so that the state is updated even though a failure envelope is
returned for that exception; on a missing email, a non-200 status, or an
exception raised before the JSON is read, the previous value is kept. -/
theorem C9_amended_state_mutation (cfg : Config) (o : UserOutcome)
    (email : Option String) (wo : WsOutcome) (ro : RepoRemote) (remote : SrcRemote)
    (fuel : Nat) (ws rs br p fp fn ts : String) (wsOpt : Option String) (psz : Nat)
    (w : WriteOutcome) (st : Option String) :
    (authenticate_user cfg o email st).1 = authStateAfter cfg o email st ∧
    (get_repository_codebase cfg o remote fuel ws rs br p st).1 = st ∧
    (save_codebase_to_file cfg o remote fuel ws rs fn br p ts w st).1 = st ∧
    ((get_workspaces cfg o wo st).1 = st ∨
      (get_workspaces cfg o wo st).1 = (authenticate_user cfg o none st).1) ∧
    ((get_repositories cfg o ro fuel wsOpt psz st).1 = st ∨
      (get_repositories cfg o ro fuel wsOpt psz st).1
        = (authenticate_user cfg o none st).1) ∧
    ((get_specific_file_content cfg o remote ws rs fp br st).1 = st ∨
      (get_specific_file_content cfg o remote ws rs fp br st).1
        = (authenticate_user cfg o none st).1) ∧
    ((get_repository_files_list cfg o remote fuel ws rs br p st).1 = st ∨
      (get_repository_files_list cfg o remote fuel ws rs br p st).1
        = (authenticate_user cfg o none st).1) := by
  refine ⟨?_, get_repository_codebase_state cfg o remote fuel ws rs br p st, ?_, ?_, ?_, ?_, ?_⟩
  · rcases hre : resolveEmail cfg email with _ | em
    · simp [authenticate_user, authStateAfter, hre]
    · rcases o with ⟨status, text, body⟩ | m
      · by_cases hs : status = 200
        · rcases hu : lookupKV body "username" with _ | u <;>
            simp [authenticate_user, authStateAfter, hre, hs, hu]
        · simp [authenticate_user, authStateAfter, hre, hs]
      · simp [authenticate_user, authStateAfter, hre]
  · by_cases ht : truthy (jget
        (get_repository_codebase cfg o remote fuel ws rs br p st).2 "success") = true
    · rcases hs : jget (get_repository_codebase cfg o remote fuel ws rs br p st).2
          "structure" with _ | s
      · simp only [save_codebase_to_file, ht, hs, if_true]
        exact get_repository_codebase_state cfg o remote fuel ws rs br p st
      · rcases w with _ | m <;>
        · simp only [save_codebase_to_file, ht, hs, if_true]
          exact get_repository_codebase_state cfg o remote fuel ws rs br p st
    · simp only [save_codebase_to_file, ht, if_false]
      exact get_repository_codebase_state cfg o remote fuel ws rs br p st
  · rw [get_workspaces_state cfg o wo st]
    exact ensure_auth_state cfg o st
  · rw [get_repositories_state cfg o ro fuel wsOpt psz st]
    exact ensure_auth_state cfg o st
  · rw [get_specific_file_content_state cfg o remote ws rs fp br st]
    exact ensure_auth_state cfg o st
  · rw [get_repository_files_list_state cfg o remote fuel ws rs br p st]
    exact ensure_auth_state cfg o st

/-- Claim C10: with `auth_headers` unset and `BITBUCKET_EMAIL` configured,
`get_repository_codebase` fails with the bare not-authenticated message,
for every auth endpoint behaviour (no authentication is attempted), while
the four auto-authenticating tools run `authenticate_user` and propagate
its result when it fails. -/
theorem C10_no_auto_auth (cfg : Config) (ao : UserOutcome) (wo : WsOutcome)
    (ro : RepoRemote) (remote : SrcRemote) (fuel : Nat)
    (ws rs br p fp : String) (wsOpt : Option String) (psz : Nat)
    (hemail : cfg.BITBUCKET_EMAIL ≠ "")
    (hfailauth : truthy (jget (authenticate_user cfg ao none none).2 "success")
      = false) :
    get_repository_codebase cfg ao remote fuel ws rs br p none
      = (none, JVal.obj [("success", JVal.bool false),
          ("error", JVal.str "Not authenticated. Please authenticate first.")]) ∧
    (∀ ao2 : UserOutcome,
      get_repository_codebase cfg ao2 remote fuel ws rs br p none
        = get_repository_codebase cfg ao remote fuel ws rs br p none) ∧
    get_workspaces cfg ao wo none
      = ((authenticate_user cfg ao none none).1,
         (authenticate_user cfg ao none none).2) ∧
    get_repositories cfg ao ro fuel wsOpt psz none
      = ((authenticate_user cfg ao none none).1,
         some (authenticate_user cfg ao none none).2) ∧
    get_specific_file_content cfg ao remote ws rs fp br none
      = ((authenticate_user cfg ao none none).1,
         (authenticate_user cfg ao none none).2) ∧
    get_repository_files_list cfg ao remote fuel ws rs br p none
      = ((authenticate_user cfg ao none none).1,
         (authenticate_user cfg ao none none).2) := by
  have he : (ensure_auth cfg ao none)
      = ((authenticate_user cfg ao none none).1,
         some (authenticate_user cfg ao none none).2) := by
    simp [ensure_auth, hemail, hfailauth]
  refine ⟨rfl, fun ao2 => rfl, ?_, ?_, ?_, ?_⟩
  · simp [get_workspaces, he]
  · simp [get_repositories, he]
  · simp [get_specific_file_content, he]
  · simp [get_repository_files_list, he]

/-- Witness for C10: a 401-answering auth endpoint; the codebase fetch
fails with the bare message while `get_workspaces` returns the
authentication-failure envelope. -/
theorem C10_witness :
    get_repository_codebase cfg0 aoFail401 c1Remote 3 "w" "r" "main" "" none
      = (none, JVal.obj [("success", JVal.bool false),
          ("error", JVal.str "Not authenticated. Please authenticate first.")]) ∧
    get_workspaces cfg0 aoFail401 wso0 none
      = (none, JVal.obj [("success", JVal.bool false),
          ("error", JVal.str ("Authentication failed: 401")),
          ("details", JVal.str "unauthorized")]) :=
  ⟨(C10_no_auto_auth cfg0 aoFail401 wso0 ro0 c1Remote 3 "w" "r" "main" "" "fp"
      none 50 (by decide) rfl).1,
   (C10_no_auto_auth cfg0 aoFail401 wso0 ro0 c1Remote 3 "w" "r" "main" "" "fp"
      none 50 (by decide) rfl).2.2.1⟩

end Bitbucket

